import Mathlib

/-!
Verification development for the AgPipeline OpenDroneMap transformer.

The repository is Python; the definitions below are a shallow embedding of
the pure logic of its source files:

  * `transformer_class.py` — EXIF timestamp resolution (`__internal__.fromisoformat`,
    `__internal__.exif_tags_to_timestamp`, `__internal__.get_first_timestamp`,
    `Transformer.get_acceptable_files`, the timestamp loop of
    `Transformer.get_transformer_params`);
  * `odm.py` — the current-generation stage (`__internal__.check_for_image_file`,
    `Opendronemap.check_continue`, `Opendronemap.perform_process`, `RESULT_FILES`);
  * `transformer.py` — the older-generation stage (its own `check_for_image_file`,
    `__internal__.get_merge_options`, `perform_process`, `RESULT_FILES`);
  * `worker.py` — the subordinate engine bootstrap (`perform_work`'s settings merge);
  * `entrypoint.py` — the pipeline runner (`__internal__.parse_continue_result`,
    `__internal__.handle_check_continue`, `__internal__.perform_processing`).

Filesystem access (`os.path.isdir`, `os.listdir`, `os.path.exists`, `piexif.load`)
is modelled by an explicit oracle structure `FileSys`; process execution and
logging are I/O and appear only as parameters (the subordinate engine's exit
code) or are dropped (log lines).  Python exceptions are modelled with
`Except Unit`; a caught exception is an explicit `match` on the `Except` value.
-/

namespace AgOdm

/-! ## Character and list utilities (Python `str` helpers) -/

/-- Python whitespace for `str.strip()` (ASCII subset). -/
def isPySpace (c : Char) : Bool :=
  c = ' ' || c = '\t' || c = '\n' || c = '\r' || c = '\x0b' || c = '\x0c'

/-- Model of `str.strip()` on a character list. -/
def trimList (cs : List Char) : List Char :=
  ((cs.dropWhile isPySpace).reverse.dropWhile isPySpace).reverse

/-- Does `cs` start with the pattern `pat`? -/
def listStarts : List Char → List Char → Bool
  | [], _ => true
  | _ :: _, [] => false
  | a :: as, b :: bs => a = b && listStarts as bs

/-- Index of the last occurrence of `c` in `cs` (Python `str.rfind`, `none` = -1). -/
def rfindIdxCh (c : Char) : List Char → Option Nat
  | [] => none
  | x :: xs =>
    match rfindIdxCh c xs with
    | some j => some (j + 1)
    | none => if x = c then some 0 else none

/-- Python `str.rfind` as an integer (−1 when absent). -/
def rfindI (cs : List Char) (c : Char) : Int :=
  match rfindIdxCh c cs with
  | some j => (j : Int)
  | none => -1

/-- Fuel-indexed worker for `removeSub`; each step consumes at least one
character, so fuel equal to the list length is always sufficient. -/
def removeSubFuel (pat : List Char) : Nat → List Char → List Char
  | 0, cs => cs
  | _, [] => []
  | fuel + 1, c :: cs =>
    if pat ≠ [] ∧ listStarts pat (c :: cs) then
      removeSubFuel pat fuel ((c :: cs).drop pat.length)
    else
      c :: removeSubFuel pat fuel cs

/-- Model of `str.replace(pat, "")`: removes every occurrence of `pat`, scanning left to
right and continuing after each removed occurrence. -/
def removeSub (pat : List Char) (cs : List Char) : List Char :=
  removeSubFuel pat cs.length cs

/-- ASCII lower-casing of one character (Python `str.lower` restricted to ASCII,
which covers every string these claims exercise). -/
def charLower (c : Char) : Char :=
  if 'A' ≤ c ∧ c ≤ 'Z' then Char.ofNat (c.toNat + 32) else c

/-- Python `str.lower` (ASCII). -/
def lowerStr (s : String) : String :=
  String.mk (s.data.map charLower)

/-- Value of a decimal digit character. -/
def digitVal (c : Char) : Nat := c.toNat - 48

/-- Value of a list of decimal digit characters. -/
def digitsVal (ds : List Char) : Nat :=
  ds.foldl (fun a c => a * 10 + digitVal c) 0

/-- Take up to `max` leading decimal digits (greedy, like the `\d{1,n}` regex
groups used by CPython's `_strptime`). -/
def takeDigitsUpTo : Nat → List Char → List Char × List Char
  | 0, cs => ([], cs)
  | _ + 1, [] => ([], [])
  | k + 1, c :: cs =>
    if c.isDigit then
      let r := takeDigitsUpTo k cs
      (c :: r.1, r.2)
    else ([], c :: cs)

/-- The decimal digit character for `n % 10`. -/
def digitChar (n : Nat) : Char := Char.ofNat (48 + n % 10)

/-- Model of `%02d` formatting (fields are range-validated, so two digits suffice). -/
def pad2 (n : Nat) : List Char := [digitChar (n / 10), digitChar n]

/-- Model of `%04d` formatting. -/
def pad4 (n : Nat) : List Char :=
  [digitChar (n / 1000), digitChar (n / 100), digitChar (n / 10), digitChar n]

/-- Model of `%06d` formatting. -/
def pad6 (n : Nat) : List Char :=
  [digitChar (n / 100000), digitChar (n / 10000), digitChar (n / 1000),
   digitChar (n / 100), digitChar (n / 10), digitChar n]

/-- Lexicographic comparison of equal-length `Nat` lists; this is how Python
compares two naive `datetime` objects (tuple comparison of their fields). -/
def natListLt : List Nat → List Nat → Bool
  | [], [] => false
  | [], _ :: _ => true
  | _ :: _, [] => false
  | a :: as, b :: bs => if a < b then true else if b < a then false else natListLt as bs

/-! ## The `datetime` model -/

/-- A Python `datetime.datetime` as produced by `datetime.strptime`: calendar
fields plus an optional UTC offset in seconds (`none` = naive). -/
structure PyDatetime where
  year : Nat
  month : Nat
  day : Nat
  hour : Nat
  minute : Nat
  second : Nat
  microsecond : Nat
  tzSeconds : Option Int
deriving DecidableEq, Repr

/-- Gregorian leap year. -/
def isLeap (y : Nat) : Bool := y % 4 = 0 && (y % 100 ≠ 0 || y % 400 = 0)

/-- Days in a month. -/
def daysInMonth (y m : Nat) : Nat :=
  if m = 2 then (if isLeap y then 29 else 28)
  else if m = 4 || m = 6 || m = 9 || m = 11 then 30
  else 31

/-- The `datetime` constructor's range validation (raises `ValueError`,
modelled as `none`, outside these bounds). -/
def mkValidDatetime (y mo d h mi s us : Nat) (tz : Option Int) : Option PyDatetime :=
  if 1 ≤ y ∧ y ≤ 9999 ∧ 1 ≤ mo ∧ mo ≤ 12 ∧ 1 ≤ d ∧ d ≤ daysInMonth y mo
      ∧ h ≤ 23 ∧ mi ≤ 59 ∧ s ≤ 59 then
    some ⟨y, mo, d, h, mi, s, us, tz⟩
  else none

/-- Model of `%Y`: exactly four digits. -/
def parseYear (cs : List Char) : Option (Nat × List Char) :=
  let p := takeDigitsUpTo 4 cs
  if p.1.length = 4 then some (digitsVal p.1, p.2) else none

/-- Model of `%m`, `%d`, `%H`, `%M`, `%S`: one or two digits. -/
def parse2 (cs : List Char) : Option (Nat × List Char) :=
  let p := takeDigitsUpTo 2 cs
  if 1 ≤ p.1.length then some (digitsVal p.1, p.2) else none

/-- Expect a literal character. -/
def expectCh (c : Char) : List Char → Option (List Char)
  | x :: xs => if x = c then some xs else none
  | [] => none

/-- Model of `%f`: one to six digits, right-padded with zeros to microseconds. -/
def parseFrac (cs : List Char) : Option (Nat × List Char) :=
  let p := takeDigitsUpTo 6 cs
  if 1 ≤ p.1.length then some (digitsVal p.1 * 10 ^ (6 - p.1.length), p.2) else none

/-- Exactly two digits. -/
def parseTwo : List Char → Option (Nat × List Char)
  | a :: b :: rest =>
    if a.isDigit && b.isDigit then some (digitVal a * 10 + digitVal b, rest) else none
  | _ => none

/-- Seconds part of a `%z` offset: with a colon-separated offset a further
`:SS` is accepted; without one, a further bare `SS` is accepted (CPython's
`_strptime` post-processing of the `z` group). -/
def parseTzTail (colonUsed : Bool) (r2 : List Char) : Nat × List Char :=
  if colonUsed then
    match r2 with
    | ':' :: rest =>
      match parseTwo rest with
      | some p => p
      | none => (0, r2)
    | _ => (0, r2)
  else
    match parseTwo r2 with
    | some p => p
    | none => (0, r2)

/-- Model of `%z`: `Z`, or a sign followed by `HH[:]MM` and optional seconds.  The
resulting offset must be strictly less than 24 hours in magnitude
(`datetime.timezone`'s bound). -/
def parseTz : List Char → Option (Int × List Char)
  | [] => none
  | c :: rest =>
    if c = 'Z' then some (0, rest)
    else if c = '+' || c = '-' then
      match parseTwo rest with
      | none => none
      | some (hh, r1) =>
        let colonUsed := match r1 with | ':' :: _ => true | _ => false
        let r1' := if colonUsed then r1.drop 1 else r1
        match parseTwo r1' with
        | none => none
        | some (mm, r2) =>
          let st := parseTzTail colonUsed r2
          let tot : Int := (hh : Int) * 3600 + (mm : Int) * 60 + (st.1 : Int)
          if tot < 86400 then some (if c = '-' then -tot else tot, st.2) else none
    else none

/-- The three literal layouts `__internal__.fromisoformat` chooses between. -/
inductive DateSepStyle
  | colonAll   -- '%Y:%m:%d %H:%M:%S'
  | dashSpace  -- '%Y-%m-%d %H:%M:%S'
  | dashT      -- '%Y-%m-%dT%H:%M:%S'
deriving DecidableEq, Repr

/-- Model of `datetime.datetime.strptime` restricted to the formats built by
`__internal__.fromisoformat`: the chosen base layout, optionally extended with
`.%f` and/or `%z`.  The whole string must be consumed (`strptime` raises on
unconverted remainder). -/
def strptimeLayout (cs : List Char) (style : DateSepStyle) (hasFrac hasTz : Bool) :
    Option PyDatetime := do
  let (dateSep, midSep) :=
    match style with
    | .colonAll => (':', ' ')
    | .dashSpace => ('-', ' ')
    | .dashT => ('-', 'T')
  let (y, r) ← parseYear cs
  let r ← expectCh dateSep r
  let (mo, r) ← parse2 r
  let r ← expectCh dateSep r
  let (d, r) ← parse2 r
  let r ← expectCh midSep r
  let (h, r) ← parse2 r
  let r ← expectCh ':' r
  let (mi, r) ← parse2 r
  let r ← expectCh ':' r
  let (s, r) ← parse2 r
  let (us, r) ←
    if hasFrac then do
      let r ← expectCh '.' r
      parseFrac r
    else pure ((0 : Nat), r)
  let (tz, r) ←
    if hasTz then do
      let (o, r) ← parseTz r
      pure ((some o : Option Int), r)
    else pure ((none : Option Int), r)
  if r = [] then mkValidDatetime y mo d h mi s us tz else none

/-- Model of `transformer_class.__internal__.fromisoformat` on a non-empty string:
chooses the base format from the characters present, then appends `.%f` when a
dot occurs and `%z` when a plus occurs or the last minus sits after the last
colon; `strptime` failure is caught and becomes `None`. -/
def fromisoformatRaw (s : String) : Option PyDatetime :=
  let cs := s.data
  let style :=
    if cs.contains 'T' then DateSepStyle.dashT
    else if cs.contains '-' then DateSepStyle.dashSpace
    else DateSepStyle.colonAll
  let hasFrac := cs.contains '.'
  let hasTz := cs.contains '+' || decide (rfindI cs '-' > rfindI cs ':')
  strptimeLayout cs style hasFrac hasTz

/-- Model of `transformer_class.__internal__.fromisoformat`.  The argument is an
optional string because callers pass Python `None` through; `if not timestamp`
maps `None` and the empty string to `None`. -/
def fromisoformat : Option String → Option PyDatetime
  | none => none
  | some s => if s.data = [] then none else fromisoformatRaw s

/-- Model of `datetime.isoformat()` for the datetimes this model can produce
(offsets are whole seconds, so the suffix is `±HH:MM` or `±HH:MM:SS`). -/
def tzSuffix : Option Int → List Char
  | none => []
  | some off =>
    let sgn := if off < 0 then '-' else '+'
    let a := off.natAbs
    let hh := a / 3600
    let mm := a % 3600 / 60
    let ss := a % 60
    [sgn] ++ pad2 hh ++ [':'] ++ pad2 mm ++ (if ss ≠ 0 then [':'] ++ pad2 ss else [])

/-- Model of `datetime.isoformat()`. -/
def PyDatetime.isoformat (d : PyDatetime) : String :=
  String.mk
    (pad4 d.year ++ ['-'] ++ pad2 d.month ++ ['-'] ++ pad2 d.day ++ ['T'] ++
     pad2 d.hour ++ [':'] ++ pad2 d.minute ++ [':'] ++ pad2 d.second ++
     (if d.microsecond ≠ 0 then ['.'] ++ pad6 d.microsecond else []) ++
     tzSuffix d.tzSeconds)

/-- The fields of a naive datetime as a tuple, for Python's tuple comparison. -/
def PyDatetime.fieldsList (d : PyDatetime) : List Nat :=
  [d.year, d.month, d.day, d.hour, d.minute, d.second, d.microsecond]

/-- Days from civil epoch (proleptic Gregorian), used to compare aware
datetimes by their UTC instant. -/
def daysFromCivil (y mo d : Nat) : Int :=
  let yy : Int := (y : Int) - (if mo ≤ 2 then 1 else 0)
  let era : Int := yy / 400
  let yoe : Int := yy - era * 400
  let mp : Nat := (mo + 9) % 12
  let doy : Int := ((153 * (mp : Int) + 2) / 5) + (d : Int) - 1
  let doe : Int := yoe * 365 + yoe / 4 - yoe / 100 + doy
  era * 146097 + doe - 719468

/-- A datetime's instant in microseconds given its offset. -/
def PyDatetime.instantMicros (d : PyDatetime) (off : Int) : Int :=
  ((daysFromCivil d.year d.month d.day) * 86400 +
      (d.hour : Int) * 3600 + (d.minute : Int) * 60 + (d.second : Int) - off) * 1000000 +
    (d.microsecond : Int)

/-- Python `<` on datetimes: naive pairs compare by fields, aware pairs by
instant, and a mixed pair raises `TypeError` (modelled as `.error`). -/
def pyDatetimeLt (a b : PyDatetime) : Except Unit Bool :=
  match a.tzSeconds, b.tzSeconds with
  | none, none => .ok (natListLt a.fieldsList b.fieldsList)
  | some x, some y => .ok (decide (a.instantMicros x < b.instantMicros y))
  | _, _ => .error ()

/-! ## EXIF tags and the timestamp resolver (`transformer_class.py`) -/

/-- The EXIF values `exif_tags_to_timestamp` consults.  `originalStamp` is tag
36867 (`EXIF_ORIGINAL_TIMESTAMP`) and `stampOffset` is tag 36881; the source's
two offset constants `EXIF_TIMESTAMP_OFFSET` and `EXIF_ORIGINAL_TIMESTAMP_OFFSET`
are both 36881, so a single field covers both lookups.  `none` covers an
absent key (byte values are shown already decoded; decoding also strips). -/
structure ExifTags where
  originalStamp : Option String
  stampOffset : Option String
deriving DecidableEq, Repr

/-- Model of `convert_and_clean_tag`: `None`/empty stays `None`; otherwise the value is
stripped, and it becomes `None` when removing `":"`, `"+:"` and `"-"` and
stripping leaves nothing. -/
def convert_and_clean_tag : Option String → Option String
  | none => none
  | some v0 =>
    if v0.data = [] then none
    else
      let v := trimList v0.data
      if v ≠ [] ∧ trimList (removeSub ['-'] (removeSub ['+', ':'] (removeSub [':'] v))) = [] then
        none
      else if v = [] then none
      else some (String.mk v)

/-- Model of `__internal__.exif_tags_to_timestamp`: clean the capture-timestamp tag
(`None` when absent or noise), then the offset tag; without an offset the
stamp alone is parsed, with one the colon-stripped offset is appended first. -/
def exif_tags_to_timestamp (tags : ExifTags) : Option PyDatetime :=
  match convert_and_clean_tag tags.originalStamp with
  | none => none
  | some cur_stamp =>
    match convert_and_clean_tag tags.stampOffset with
    | none => fromisoformat (some cur_stamp)
    | some cur_offset =>
      fromisoformat (some (cur_stamp ++ String.mk (removeSub [':'] cur_offset.data)))

/-- Filesystem / EXIF oracle: `isDir` is `os.path.isdir`, `listDir` is
`os.listdir`, `pathExists` is `os.path.exists`, and `exifLoad` is
`piexif.load` composed with the `"Exif"` section lookup — `.error` models a
raised exception, `.ok none` a falsy dict or missing `"Exif"` key. -/
structure FileSys where
  isDir : String → Bool
  listDir : String → List String
  pathExists : String → Bool
  exifLoad : String → Except Unit (Option ExifTags)

/-- Model of `__internal__.get_first_timestamp`: parse the incoming timestamp, then try
to read a timestamp from the file and keep the earlier of the two; every
exception inside the `try` block (unreadable metadata, or comparing a naive
with an aware datetime) is caught and logged.  Returns the iso-formatted
earliest stamp, or the input unchanged when nothing parsed. -/
def get_first_timestamp (fs : FileSys) (file_path : String) (timestamp : Option String) :
    Option String :=
  let first0 := fromisoformat timestamp
  let tryBody : Except Unit (Option PyDatetime) := do
    let tags? ← fs.exifLoad file_path
    match tags? with
    | none => pure first0
    | some tags =>
      match exif_tags_to_timestamp tags with
      | none => pure first0
      | some cur =>
        match first0 with
        | none => pure (some cur)
        | some f => do
          let lt ← pyDatetimeLt cur f
          pure (if lt then some cur else some f)
  let first_stamp :=
    match tryBody with
    | .ok v => v
    | .error _ => first0
  match first_stamp with
  | some d => some d.isoformat
  | none => timestamp

/-- Model of `os.path.splitext(path)[1]`: the extension (with its dot) of the last path
component, empty when the component has no dot after its leading dots. -/
def splitextExt (p : String) : String :=
  let cs := p.data
  match rfindIdxCh '.' cs with
  | none => ""
  | some dotIdx =>
    let sepIdx : Int := rfindI cs '/'
    if sepIdx < (dotIdx : Int) then
      if ((cs.drop (sepIdx + 1).toNat).take ((dotIdx : Int) - sepIdx - 1).toNat).any
          (fun ch => ch ≠ '.') then
        String.mk (cs.drop dotIdx)
      else ""
    else ""

/-- Model of `os.path.join` for the relative two-argument uses in this code base. -/
def pathJoin (a b : String) : String :=
  if listStarts ['/'] b.data then b
  else if a.data = [] || a.data.getLast? = some '/' then a ++ b
  else a ++ "/" ++ b

namespace TrCls

/-- Model of `Transformer.supported_file_exts` (`transformer_class.py`). -/
def supported_file_exts : List String := ["tif", "tiff", "jpg", "txt"]

/-- The per-path extension test of `get_acceptable_files`:
`os.path.splitext(p)[1].lstrip('.').lower()`. -/
def extKey (p : String) : String :=
  lowerStr (String.mk ((splitextExt p).data.dropWhile (fun c => c = '.')))

/-- Model of `Transformer.get_acceptable_files`: files with a supported extension;
directory arguments are expanded one level (their non-directory children with
supported extensions, joined onto the directory path). -/
def get_acceptable_files (fs : FileSys) (files_folders : List String) : List String :=
  files_folders.foldl
    (fun return_files one_path =>
      if fs.isDir one_path then
        return_files ++
          ((fs.listDir one_path).filter
              (fun dir_path =>
                !fs.isDir dir_path && supported_file_exts.contains (extKey dir_path))).map
            (fun dir_path => pathJoin one_path dir_path)
      else if supported_file_exts.contains (extKey one_path) then return_files ++ [one_path]
      else return_files)
    []

/-- The timestamp-resolution loop of `Transformer.get_transformer_params`
(lines 264–281): when the metadata carried no `observationTimeStamp`, fold
`get_first_timestamp` over the acceptable files (skipping `-`-prefixed
arguments); a caller-supplied timestamp short-circuits every file lookup. -/
def resolve_batch_timestamp (fs : FileSys) (timestamp : Option String)
    (file_list : List String) : Option String :=
  let check_list := get_acceptable_files fs file_list
  let working :=
    check_list.foldl
      (fun working_timestamp one_file =>
        if listStarts ['-'] one_file.data then working_timestamp
        else if timestamp = none then get_first_timestamp fs one_file working_timestamp
        else working_timestamp)
      timestamp
  match timestamp with
  | some t => some t
  | none => working

end TrCls

/-! ## File classification and the stage lifecycle (`odm.py`, `transformer.py`) -/

namespace Odm

/-- Model of `odm.py`'s `KNOWN_IMAGE_FILE_EXTS` — extensions carry their leading dot. -/
def KNOWN_IMAGE_FILE_EXTS : List String := [".tif", ".tiff", ".jpg"]

/-- Model of `odm.py` `__internal__.check_for_image_file`: a directory is searched one
level deep for a non-directory child with a known extension; otherwise the
path's own lowercased extension is tested. -/
def check_for_image_file (fs : FileSys) (path : String) : Bool :=
  if fs.isDir path then
    (fs.listDir path).any
      (fun one_path =>
        !fs.isDir one_path &&
          KNOWN_IMAGE_FILE_EXTS.contains (lowerStr (splitextExt one_path)))
  else
    KNOWN_IMAGE_FILE_EXTS.contains (lowerStr (splitextExt path))

/-- The outcome of `Opendronemap.check_continue`: the bare int `0`, or a
`(code, message)` tuple. -/
inductive CheckOutcome
  | intCode (n : Int)
  | pair (code : Int) (message : String)
deriving DecidableEq, Repr

/-- The code carried by a `check_continue` outcome. -/
def CheckOutcome.codeVal : CheckOutcome → Int
  | .intCode n => n
  | .pair c _ => c

/-- The `-1001` message of `Opendronemap.check_continue`. -/
def no_image_msg : String :=
  "Unable to find an image file in files to process. Accepting files types: '" ++
    String.intercalate ", " KNOWN_IMAGE_FILE_EXTS ++ "'"

/-- The `-1000` message of `Opendronemap.check_continue`. -/
def overrides_msg (p : String) : String :=
  "OpenDroneMap overrides specified but file is not available: '" ++ p ++ "'"

/-- Model of `Opendronemap.check_continue`: reject a supplied-but-missing overrides
file with `-1000`; return the int `0` at the first image file; otherwise
`-1001` with the accepted-extension message.  `odm_overrides = none` covers a
falsy (absent or empty) command-line value. -/
def check_continue (odm_overrides : Option String) (fs : FileSys) (files : List String) :
    CheckOutcome :=
  let missingOverride :=
    match odm_overrides with
    | some p => !fs.pathExists p
    | none => false
  if missingOverride then
    .pair (-1000) (overrides_msg odm_overrides.get!)
  else if files.any (fun f => check_for_image_file fs f) then .intCode 0
  else .pair (-1001) no_image_msg

end Odm

namespace Trf

/-- Model of `transformer.py`'s `KNOWN_IMAGE_FILE_EXTS` — written without leading dots. -/
def KNOWN_IMAGE_FILE_EXTS : List String := ["tif", "tiff", "jpg"]

/-- Model of `transformer.py` `__internal__.check_for_image_file`, embedded as written:
both branches test `os.path.splitext(..)[1].lower()` — an extension that keeps
its dot — against the dot-less `KNOWN_IMAGE_FILE_EXTS` (the directory branch
even tests the parent `path`, not the child). -/
def check_for_image_file (fs : FileSys) (path : String) : Bool :=
  if fs.isDir path then
    (fs.listDir path).any
      (fun one_path =>
        !fs.isDir one_path &&
          KNOWN_IMAGE_FILE_EXTS.contains (lowerStr (splitextExt path)))
  else
    KNOWN_IMAGE_FILE_EXTS.contains (lowerStr (splitextExt path))

/-- Model of `transformer.py`'s `NO_OVERRIDE_SETTINGS` (duplicated in `worker.py`). -/
def NO_OVERRIDE_SETTINGS : List String := ["project_path"]

/-- Model of `setattr(args, k, v)` on a configuration object viewed as a key-to-value
map. -/
def setattrFn {α : Type} (args : String → Option α) (k : String) (v : α) :
    String → Option α :=
  fun q => if q = k then some v else args q

/-- Model of `transformer.py` `__internal__.get_merge_options`: fold the loaded
override mapping over the default configuration, applying every key not in
`NO_OVERRIDE_SETTINGS` and skipping (with a logged warning) the ones that are.
`overrides = none` covers both an absent path and a file that loads falsy. -/
def get_merge_options {α : Type} (args0 : String → Option α)
    (overrides : Option (List (String × α))) : String → Option α :=
  match overrides with
  | none => args0
  | some new_settings =>
    new_settings.foldl
      (fun args kv =>
        if !NO_OVERRIDE_SETTINGS.contains kv.1 then setattrFn args kv.1 kv.2 else args)
      args0

end Trf

namespace Worker

/-- Model of `worker.py` `perform_work`'s configuration steps: merge the override
settings (skipping `NO_OVERRIDE_SETTINGS` keys exactly as
`transformer.__internal__.get_merge_options` does) and then assign
`args.project_path` from the `ODM_PROJECT` environment value. -/
def merged_config {α : Type} (args0 : String → Option α)
    (new_settings : Option (List (String × α))) (project_path_env : α) :
    String → Option α :=
  let args :=
    match new_settings with
    | none => args0
    | some ns =>
      ns.foldl
        (fun a kv =>
          if !Trf.NO_OVERRIDE_SETTINGS.contains kv.1 then Trf.setattrFn a kv.1 kv.2 else a)
        args0
  Trf.setattrFn args "project_path" project_path_env

end Worker

/-! ## Result collection and `perform_process` -/

/-- One value of the `RESULT_FILES` table: a bare `{'name', 'type'}` dict or a
list of them (`perform_process` wraps the bare dict into a one-element list). -/
inductive ResultSpec
  | single (name ty : String)
  | multiple (files : List (String × String))
deriving DecidableEq, Repr

/-- The file list a `ResultSpec` denotes after the `isinstance(.., dict)`
wrapping step. -/
def ResultSpec.files : ResultSpec → List (String × String)
  | .single n t => [(n, t)]
  | .multiple fs => fs

/-- One entry of the produced manifest: `{'path': .., 'key': ..}`. -/
structure FileEntry where
  path : String
  key : String
deriving DecidableEq, Repr

/-- A value of the result dictionary returned by `perform_process`. -/
inductive RVal
  | str (s : String)
  | int (n : Int)
  | entries (l : List FileEntry)
deriving DecidableEq, Repr

namespace Odm

/-- Model of `odm.py`'s `RESULT_FILES` (dict in insertion order). -/
def RESULT_FILES : List (String × ResultSpec) :=
  [("odm_orthophoto", .single "odm_orthophoto.tif" "rgb"),
   ("odm_georeferencing", .multiple
      [("odm_georeferenced_model.laz", "lidar"),
       ("odm_georeferenced_model.bounds.shp", "shapefile"),
       ("odm_georeferenced_model.bounds.dbf", "shapefile"),
       ("odm_georeferenced_model.bounds.prj", "shapefile"),
       ("odm_georeferenced_model.bounds.shx", "shapefile"),
       ("proj.txt", "shapefile"),
       ("odm_georeferenced_model.bounds.geojson", "shapefile"),
       ("odm_georeferenced_model.boundary.json", "shapefile")]),
   ("mve", .single "mve_dense_point_cloud.ply" "pointcloud"),
   ("odm_dem", .multiple [("dsm.tif", "dsm"), ("dtm.tif", "dtm")])]

/-- The manifest loop of `Opendronemap.perform_process`: for each table row,
append `{'path': cur_path, 'key': type}` whenever
`projectPath/<subdirectory>/<filename>` exists. -/
def collect_result_files (fileExists : String → Bool) (project_path : String) :
    List FileEntry :=
  RESULT_FILES.foldl
    (fun files_md rf =>
      let result_path := pathJoin project_path rf.1
      rf.2.files.foldl
        (fun acc one_file =>
          let cur_path := pathJoin result_path one_file.1
          if fileExists cur_path then acc ++ [⟨cur_path, one_file.2⟩] else acc)
        files_md)
    []

/-- Model of `odm.py` `__internal__.prepare_project_folder` returns its
`default_folder` argument unchanged (its directory creation and symlinking are
I/O side effects). -/
def prepare_project_folder_path (default_folder : String) : String := default_folder

/-- Model of `Opendronemap.perform_process` after the engine has terminated:
`stitch_code` stands for the value `__internal__.run_stitch` returned, i.e.
the subordinate `worker.py` process's exit code.  The returned dictionary is
`{'file': files_md, 'code': stitch_code}`. -/
def perform_process (fileExists : String → Bool) (working_folder : String)
    (stitch_code : Int) : List (String × RVal) :=
  let project_path := prepare_project_folder_path working_folder
  [("file", .entries (collect_result_files fileExists project_path)),
   ("code", .int stitch_code)]

end Odm

namespace Trf

/-- Model of `transformer.py`'s `RESULT_FILES` (dict in insertion order; no `odm_dem`). -/
def RESULT_FILES : List (String × ResultSpec) :=
  [("odm_orthophoto", .single "odm_orthophoto.tif" "rgb"),
   ("odm_georeferencing", .multiple
      [("odm_georeferenced_model.laz", "lidar"),
       ("odm_georeferenced_model.bounds.shp", "shapefile"),
       ("odm_georeferenced_model.bounds.dbf", "shapefile"),
       ("odm_georeferenced_model.bounds.prj", "shapefile"),
       ("odm_georeferenced_model.bounds.shx", "shapefile"),
       ("proj.txt", "shapefile"),
       ("odm_georeferenced_model.bounds.geojson", "shapefile"),
       ("odm_georeferenced_model.boundary.json", "shapefile")]),
   ("mve", .single "mve_dense_point_cloud.ply" "pointcloud")]

/-- The manifest loop of `transformer.py`'s `perform_process`. -/
def collect_result_files (fileExists : String → Bool) (project_path : String) :
    List FileEntry :=
  RESULT_FILES.foldl
    (fun files_md rf =>
      let result_path := pathJoin project_path rf.1
      rf.2.files.foldl
        (fun acc one_file =>
          let cur_path := pathJoin result_path one_file.1
          if fileExists cur_path then acc ++ [⟨cur_path, one_file.2⟩] else acc)
        files_md)
    []

/-- Model of `transformer.py`'s `perform_process` result: the engine runs in-process
(`ODMApp(...).execute()`, no subordinate process), and the returned dictionary
is `{'files': files_md, 'code': 0}` with a constant code. -/
def perform_process (fileExists : String → Bool) (project_path : String) :
    List (String × RVal) :=
  [("files", .entries (collect_result_files fileExists project_path)),
   ("code", .int 0)]

end Trf

/-! ## The pipeline runner (`entrypoint.py`) -/

/-- Python values as far as `entrypoint.py`'s feasibility-result plumbing
inspects them: `None`, ints, strings and sequences. -/
inductive PyVal
  | none
  | int (n : Int)
  | str (s : String)
  | seq (l : List PyVal)

/-- Python truthiness for the values above. -/
def PyVal.truthy : PyVal → Bool
  | .none => false
  | .int n => n != 0
  | .str s => !s.data.isEmpty
  | .seq l => !l.isEmpty

/-- Model of `__internal__.parse_continue_result`: an int becomes the code, a string
yields neither code nor message, any other value is measured with `len` —
raising `TypeError` (`.error`) when it has no length — and contributes its
first element as code and, length permitting, its second as message. -/
def parse_continue_result : PyVal → Except Unit (PyVal × PyVal)
  | .int n => .ok (.int n, .none)
  | .str _ => .ok (.none, .none)
  | .seq [] => .ok (.none, .none)
  | .seq [a] => .ok (a, .none)
  | .seq (a :: b :: _) => .ok (a, b)
  | .none => .error ()

/-- The result dictionary `handle_check_continue` builds (and
`perform_processing` may extend with `'error'`): only the keys these functions
write. -/
structure ResultDict where
  code : Option PyVal
  message : Option PyVal
  error : Option PyVal

/-- Model of `__internal__.handle_check_continue` (the branch where the transformer
module does define `check_continue`): parse the outcome and store only truthy
codes and messages. -/
def handle_check_continue (checkResult : PyVal) : Except Unit ResultDict := do
  let rr ← parse_continue_result checkResult
  pure
    { code := if rr.1.truthy then some rr.1 else none
      message := if rr.2.truthy then some rr.2 else none
      error := none }

/-- Model of `result['code'] < 0` — an int compares, anything else raises `TypeError`. -/
def pyIsNegInt : PyVal → Except Unit Bool
  | .int n => .ok (decide (n < 0))
  | _ => .error ()

/-- Model of `result['code'] == 0` — non-ints are simply unequal. -/
def pyEqZero : PyVal → Bool
  | .int n => n == 0
  | _ => false

/-- The observable outcome of one `__internal__.perform_processing` run, from
the check-continue call onward. -/
structure PipeRun where
  checkDict : ResultDict
  performInvoked : Bool
  prefetchTaken : Bool

/-- Model of `__internal__.perform_processing` from its `check_continue` step onward
(parameter derivation has already succeeded; both hook functions exist in this
repository).  `performInvoked` records whether `transformer.perform_process`
is called — it replaces the result dict when it is — and `prefetchTaken`
records whether the pre-fetch branch (`result['code'] == 0`, whose body is a
`pass` under a TODO comment) is entered. -/
def perform_processing (checkResult : PyVal) : Except Unit PipeRun := do
  let r0 ← handle_check_continue checkResult
  let r1 ←
    match r0.code with
    | some cv => do
      let neg ← pyIsNegInt cv
      pure
        (if neg && r0.error.isNone then
          { r0 with error := some (.str "Unknown error returned from check_continue call") }
        else r0)
    | none => pure r0
  let prefetchTaken :=
    r1.error.isNone &&
      (match r1.code with
       | some cv => pyEqZero cv
       | none => false)
  let performInvoked := r1.error.isNone
  pure ⟨r1, performInvoked, prefetchTaken⟩

/-- A `check_continue` outcome as the Python value handed to
`parse_continue_result`. -/
def Odm.CheckOutcome.toPyVal : Odm.CheckOutcome → PyVal
  | .intCode n => .int n
  | .pair c m => .seq [.int c, .str m]

/-! ## Derived definitions used to state the claims -/

/-- What `get_first_timestamp` returns when the file contributes nothing: the
parsed-and-reformatted input timestamp when it parses, the input unchanged
otherwise. -/
def no_discovery_result (timestamp : Option String) : Option String :=
  match fromisoformat timestamp with
  | some d => some d.isoformat
  | none => timestamp

/-- The value of the last occurrence of key `k` in a key/value list (a Python
dict iterated in insertion order assigns the last value of each key). -/
def lastVal {α : Type} : List (String × α) → String → Option α
  | [], _ => none
  | kv :: ns, k =>
    match lastVal ns k with
    | some v => some v
    | none => if kv.1 = k then some kv.2 else none

/-- Model of `odm.py`'s `RESULT_FILES` flattened in table order, within-subdirectory
order preserved: `(subdirectory, filename, semantic type)` rows. -/
def Odm.RESULT_FILES_flat : List (String × String × String) :=
  [("odm_orthophoto", "odm_orthophoto.tif", "rgb"),
   ("odm_georeferencing", "odm_georeferenced_model.laz", "lidar"),
   ("odm_georeferencing", "odm_georeferenced_model.bounds.shp", "shapefile"),
   ("odm_georeferencing", "odm_georeferenced_model.bounds.dbf", "shapefile"),
   ("odm_georeferencing", "odm_georeferenced_model.bounds.prj", "shapefile"),
   ("odm_georeferencing", "odm_georeferenced_model.bounds.shx", "shapefile"),
   ("odm_georeferencing", "proj.txt", "shapefile"),
   ("odm_georeferencing", "odm_georeferenced_model.bounds.geojson", "shapefile"),
   ("odm_georeferencing", "odm_georeferenced_model.boundary.json", "shapefile"),
   ("mve", "mve_dense_point_cloud.ply", "pointcloud"),
   ("odm_dem", "dsm.tif", "dsm"),
   ("odm_dem", "dtm.tif", "dtm")]

/-! ## Concrete filesystem fixtures for witnesses and counterexamples -/

/-- A filesystem of plain files only: nothing is a directory, nothing exists,
no file has EXIF data. -/
def fsPlainFiles : FileSys :=
  { isDir := fun _ => false
    listDir := fun _ => []
    pathExists := fun _ => false
    exifLoad := fun _ => .ok Option.none }

/-- Two plain JPEG files whose EXIF capture timestamps are
`2020:01:15 10:00:00` (`one.jpg`) and `2020:01:10 09:00:00` (`two.jpg`),
with no offset tags. -/
def fsC3 : FileSys :=
  { isDir := fun _ => false
    listDir := fun _ => []
    pathExists := fun _ => false
    exifLoad := fun p =>
      if p = "one.jpg" then .ok (some ⟨some "2020:01:15 10:00:00", Option.none⟩)
      else if p = "two.jpg" then .ok (some ⟨some "2020:01:10 09:00:00", Option.none⟩)
      else .ok Option.none }

/-- Every file has an EXIF block whose capture-timestamp tag is absent. -/
def fsTagAbsent : FileSys :=
  { isDir := fun _ => false
    listDir := fun _ => []
    pathExists := fun _ => false
    exifLoad := fun _ => .ok (some ⟨Option.none, Option.none⟩) }

/-- Every file's embedded metadata is malformed: `piexif.load` raises. -/
def fsBroken : FileSys :=
  { isDir := fun _ => false
    listDir := fun _ => []
    pathExists := fun _ => false
    exifLoad := fun _ => .error () }

/-! ## Helper lemmas -/

/-- A file that triggers the exception handler of `get_first_timestamp` or
whose EXIF tags yield no timestamp contributes nothing: the result is exactly
the no-discovery result of the incoming timestamp. -/
theorem get_first_timestamp_no_contribution (fs : FileSys) (path : String)
    (ts : Option String)
    (h : fs.exifLoad path = .error () ∨ fs.exifLoad path = .ok Option.none ∨
      ∃ tags, fs.exifLoad path = .ok (some tags) ∧
        exif_tags_to_timestamp tags = Option.none) :
    get_first_timestamp fs path ts = no_discovery_result ts := by
  unfold get_first_timestamp no_discovery_result
  rcases h with h | h | ⟨tags, h1, h2⟩
  · rw [h]
    rfl
  · rw [h]
    rfl
  · rw [h1]
    simp only [bind, Except.bind]
    rw [h2]
    rfl

/-! ## Claim C3 -/

/-- C3: with no caller-supplied timestamp, the batch loop of
`get_transformer_params` resolves the earliest embedded timestamp, folding
each file's candidate into the running minimum: for files carrying
`2020:01:15 10:00:00` and `2020:01:10 09:00:00` (no offsets) the result is
`2020-01-10T09:00:00` — in either file order, so the later-listed earlier
stamp replaces the running value and the earlier-listed one is kept. -/
theorem claim_C3_batch_resolves_earliest_timestamp :
    TrCls.resolve_batch_timestamp fsC3 Option.none ["one.jpg", "two.jpg"] =
      some "2020-01-10T09:00:00" ∧
    TrCls.resolve_batch_timestamp fsC3 Option.none ["two.jpg", "one.jpg"] =
      some "2020-01-10T09:00:00" := by
  constructor <;> rfl

/-! ## Claim C8 -/

/-- C8: embedded-timestamp extraction never lets an error escape the
resolver: when `piexif.load` raises (`.error`), when the metadata has no EXIF
section, or when the EXIF tags fail to produce a parsed timestamp, the file
contributes nothing and `get_first_timestamp` returns the ordinary
no-discovery result for its input timestamp (every raising path in the
embedding is `Except`-typed and is caught here). -/
theorem claim_C8_malformed_metadata_swallowed (fs : FileSys) (path : String)
    (ts : Option String)
    (h : fs.exifLoad path = .error () ∨ fs.exifLoad path = .ok Option.none ∨
      ∃ tags, fs.exifLoad path = .ok (some tags) ∧
        exif_tags_to_timestamp tags = Option.none) :
    get_first_timestamp fs path ts = no_discovery_result ts :=
  get_first_timestamp_no_contribution fs path ts h

/-- Witness for C8 at a file whose metadata load raises. -/
theorem claim_C8_malformed_metadata_swallowed_witness :
    fsBroken.exifLoad "broken.jpg" = .error () ∧
    get_first_timestamp fsBroken "broken.jpg" (some "2020-01-15T10:00:00") =
      some "2020-01-15T10:00:00" := by
  refine ⟨rfl, ?_⟩
  rw [claim_C8_malformed_metadata_swallowed fsBroken "broken.jpg"
    (some "2020-01-15T10:00:00") (Or.inl rfl)]
  rfl

/-! ## Claim C4 -/

/-- C4 counterexample: with the capture-timestamp tag absent, resolution does
not return its input unchanged — the parseable EXIF-style input
`2020:01:10 09:00:00` comes back normalized as `2020-01-10T09:00:00`. -/
theorem claim_C4_counterexample :
    get_first_timestamp fsTagAbsent "img.jpg" (some "2020:01:10 09:00:00") =
      some "2020-01-10T09:00:00" ∧
    (some "2020-01-10T09:00:00" : Option String) ≠ some "2020:01:10 09:00:00" := by
  constructor
  · rfl
  · decide

/-- C4 as amended: (1) a caller-supplied timestamp is returned unchanged and
no file is consulted (the result does not depend on the filesystem); (2) when
the file's tag is absent/empty or unparseable, the result is the no-discovery
result of the input; (3) that no-discovery result is the input *unchanged*
exactly in case the input itself does not parse — a parseable input is
returned in normalized ISO form instead. -/
theorem claim_C4_unchanged_only_without_parse (fs : FileSys) (files : List String)
    (t : String) (path : String) (ts : Option String)
    (hnc : fs.exifLoad path = .error () ∨ fs.exifLoad path = .ok Option.none ∨
      ∃ tags, fs.exifLoad path = .ok (some tags) ∧
        exif_tags_to_timestamp tags = Option.none)
    (hts : fromisoformat ts = Option.none) :
    TrCls.resolve_batch_timestamp fs (some t) files = some t ∧
    get_first_timestamp fs path ts = no_discovery_result ts ∧
    no_discovery_result ts = ts := by
  refine ⟨rfl, get_first_timestamp_no_contribution fs path ts hnc, ?_⟩
  unfold no_discovery_result
  rw [hts]

/-- Witness for C4 at a concrete filesystem, file list and timestamps. -/
theorem claim_C4_unchanged_only_without_parse_witness :
    (fsTagAbsent.exifLoad "img.jpg" = .ok (some ⟨Option.none, Option.none⟩) ∧
      exif_tags_to_timestamp ⟨Option.none, Option.none⟩ = Option.none) ∧
    fromisoformat (some "bogus") = Option.none ∧
    TrCls.resolve_batch_timestamp fsTagAbsent (some "2020-01-10T09:00:00") ["img.jpg"] =
      some "2020-01-10T09:00:00" ∧
    get_first_timestamp fsTagAbsent "img.jpg" (some "bogus") = some "bogus" := by
  refine ⟨⟨rfl, rfl⟩, rfl, ?_⟩
  have h := claim_C4_unchanged_only_without_parse fsTagAbsent ["img.jpg"]
    "2020-01-10T09:00:00" "img.jpg" (some "bogus")
    (Or.inr (Or.inr ⟨⟨Option.none, Option.none⟩, rfl, rfl⟩)) rfl
  exact ⟨h.1, h.2.1.trans h.2.2⟩

/-! ## Claim C10 -/

/-- C10: `parse_continue_result` normalizes the feasibility-check return
value: an int yields `(that int, None)`; a string yields `(None, None)`; a
sequence of length one yields `(its element, None)`; a sequence of length two
or more yields its first element as the code and its second as the message. -/
theorem claim_C10_parse_continue_result_shapes :
    (∀ n : Int, parse_continue_result (.int n) = .ok (.int n, .none)) ∧
    (∀ s : String, parse_continue_result (.str s) = .ok (.none, .none)) ∧
    (∀ a : PyVal, parse_continue_result (.seq [a]) = .ok (a, .none)) ∧
    (∀ (a b : PyVal) (rest : List PyVal),
      parse_continue_result (.seq (a :: b :: rest)) = .ok (a, b)) :=
  ⟨fun _ => rfl, fun _ => rfl, fun _ => rfl, fun _ _ _ => rfl⟩

/-! ## Claim C9 -/

/-- C9 counterexample: for the positive feasibility code 5 the runner does
proceed to `perform_process`, but the pre-fetch branch is *not* taken — there
is no "pre-fetch then execute" path for positive codes. -/
theorem claim_C9_counterexample :
    (perform_processing (PyVal.int 5)).map
        (fun r => (r.performInvoked, r.prefetchTaken)) = .ok (true, false) := rfl

/-- C9 as amended: for every non-negative feasibility code — positive or
zero — the runner invokes `perform_process`, and the pre-fetch branch (guarded
by `result['code'] == 0`, a no-op `pass` in the source) is never entered,
because `handle_check_continue` drops a falsy zero code before storage. -/
theorem claim_C9_nonnegative_code_proceeds (n : Int) (h : 0 ≤ n) :
    (perform_processing (PyVal.int n)).map
        (fun r => (r.performInvoked, r.prefetchTaken)) = .ok (true, false) := by
  have hneg : ¬ n < 0 := not_lt.mpr h
  by_cases hz : n = 0
  · subst hz
    rfl
  · simp [perform_processing, handle_check_continue, parse_continue_result,
      PyVal.truthy, pyIsNegInt, pyEqZero, bind, Except.bind, pure, Except.pure,
      Except.map, hz, hneg, bne]

/-- Witness for C9 at the zero code. -/
theorem claim_C9_nonnegative_code_proceeds_witness :
    (0 : Int) ≤ 0 ∧
    (perform_processing (PyVal.int 0)).map
        (fun r => (r.performInvoked, r.prefetchTaken)) = .ok (true, false) :=
  ⟨le_refl 0, claim_C9_nonnegative_code_proceeds 0 (le_refl 0)⟩

/-! ## Claim C2 -/

/-- C2 counterexample: with an overrides file that is specified but missing
and no image file among the (empty) inputs, `check_continue` returns code
`-1000` — not the claimed `-1001`. -/
theorem claim_C2_counterexample :
    Odm.CheckOutcome.codeVal (Odm.check_continue (some "odm.yaml") fsPlainFiles []) =
      -1000 ∧ ((-1000 : Int) ≠ -1001) := by
  constructor
  · rfl
  · decide

/-- C2 as amended: when the overrides precondition passes (no overrides file
specified, or the specified one exists) and no input classifies as an image
file, `check_continue` returns `(-1001, message listing the accepted
extensions)`, and the runner never invokes `perform_process` for that
outcome. -/
theorem claim_C2_no_image_aborts (ov : Option String) (fs : FileSys)
    (files : List String)
    (hov : ∀ p, ov = some p → fs.pathExists p = true)
    (hni : ∀ f ∈ files, Odm.check_for_image_file fs f = false) :
    Odm.check_continue ov fs files = .pair (-1001) Odm.no_image_msg ∧
    ((perform_processing (Odm.check_continue ov fs files).toPyVal).map
        PipeRun.performInvoked = .ok false) := by
  have hany : files.any (fun f => Odm.check_for_image_file fs f) = false := by
    simp only [List.any_eq_false]
    intro f hf
    simp [hni f hf]
  have hc : Odm.check_continue ov fs files = .pair (-1001) Odm.no_image_msg := by
    unfold Odm.check_continue
    cases ov with
    | none => simp [hany]
    | some p => simp [hov p rfl, hany]
  refine ⟨hc, ?_⟩
  rw [hc]
  rfl

/-- Witness for C2: no overrides file, one text file, no image files. -/
theorem claim_C2_no_image_aborts_witness :
    (∀ p, (Option.none : Option String) = some p → fsPlainFiles.pathExists p = true) ∧
    (∀ f ∈ ["notes.txt"], Odm.check_for_image_file fsPlainFiles f = false) ∧
    Odm.check_continue Option.none fsPlainFiles ["notes.txt"] =
      .pair (-1001) Odm.no_image_msg ∧
    ((perform_processing
        (Odm.check_continue Option.none fsPlainFiles ["notes.txt"]).toPyVal).map
      PipeRun.performInvoked = .ok false) := by
  have h1 : ∀ p, (Option.none : Option String) = some p →
      fsPlainFiles.pathExists p = true := by
    intro p hp
    cases hp
  have h2 : ∀ f ∈ ["notes.txt"], Odm.check_for_image_file fsPlainFiles f = false := by
    intro f hf
    simp only [List.mem_singleton] at hf
    subst hf
    rfl
  have h := claim_C2_no_image_aborts Option.none fsPlainFiles ["notes.txt"] h1 h2
  exact ⟨h1, h2, h.1, h.2⟩

/-! ## Claim C5 -/

/-- The override-merge fold never changes the `project_path` attribute. -/
theorem merge_foldl_project_path {α : Type} (ns : List (String × α))
    (args : String → Option α) :
    (ns.foldl
        (fun a kv =>
          if !Trf.NO_OVERRIDE_SETTINGS.contains kv.1 then Trf.setattrFn a kv.1 kv.2 else a)
        args) "project_path" = args "project_path" := by
  induction ns generalizing args with
  | nil => rfl
  | cons kv tl ih =>
    simp only [List.foldl_cons]
    rw [ih]
    by_cases hk : kv.1 = "project_path"
    · simp [Trf.NO_OVERRIDE_SETTINGS, hk]
    · simp [Trf.NO_OVERRIDE_SETTINGS, Trf.setattrFn, hk, Ne.symm hk]

/-- The override-merge fold gives every non-protected key the last value the
override mapping assigns it, and leaves it at the default otherwise. -/
theorem merge_foldl_other {α : Type} (ns : List (String × α))
    (args : String → Option α) (k : String) (hk : k ≠ "project_path") :
    (ns.foldl
        (fun a kv =>
          if !Trf.NO_OVERRIDE_SETTINGS.contains kv.1 then Trf.setattrFn a kv.1 kv.2 else a)
        args) k =
      (match lastVal ns k with
        | some v => some v
        | none => args k) := by
  induction ns generalizing args with
  | nil => rfl
  | cons kv tl ih =>
    simp only [List.foldl_cons, lastVal]
    rw [ih]
    cases hlv : lastVal tl k with
    | some v => rfl
    | none =>
      by_cases hkk : kv.1 = k
      · have hnp : kv.1 ≠ "project_path" := by rw [hkk]; exact hk
        simp [Trf.NO_OVERRIDE_SETTINGS, Trf.setattrFn, hkk, hnp, hk]
      · by_cases hpp : kv.1 = "project_path"
        · have hppk : "project_path" ≠ k := by rw [← hpp]; exact hkk
          simp [Trf.NO_OVERRIDE_SETTINGS, hpp, hkk, hppk]
        · simp [Trf.NO_OVERRIDE_SETTINGS, Trf.setattrFn, hpp, hkk, Ne.symm hkk]

/-- C5: applying a settings-override mapping leaves `project_path` untouched
(the protected key is skipped, never applied, and the merge completes
normally), while every other key receives the value the override mapping
assigns it; and `worker.py` afterwards sets `project_path` from the
`ODM_PROJECT` environment value, independent of the overrides. -/
theorem claim_C5_project_path_protected {α : Type} (args0 : String → Option α)
    (ns : List (String × α)) (k : String) (hk : k ≠ "project_path") (ppEnv : α) :
    Trf.get_merge_options args0 (some ns) "project_path" = args0 "project_path" ∧
    Trf.get_merge_options args0 (some ns) k =
      (match lastVal ns k with
        | some v => some v
        | none => args0 k) ∧
    Worker.merged_config args0 (some ns) ppEnv "project_path" = some ppEnv := by
  refine ⟨merge_foldl_project_path ns args0, merge_foldl_other ns args0 k hk, ?_⟩
  simp [Worker.merged_config, Trf.setattrFn]

/-- Witness for C5: an override file carrying both the protected key and an
ordinary key. -/
theorem claim_C5_project_path_protected_witness :
    ("min_num_features" ≠ "project_path") ∧
    Trf.get_merge_options
        (fun q => if q = "project_path" then (some "/orig" : Option String) else Option.none)
        (some [("project_path", "/evil"), ("min_num_features", "9000")])
        "project_path" = some "/orig" ∧
    Trf.get_merge_options
        (fun q => if q = "project_path" then (some "/orig" : Option String) else Option.none)
        (some [("project_path", "/evil"), ("min_num_features", "9000")])
        "min_num_features" = some "9000" ∧
    Worker.merged_config
        (fun q => if q = "project_path" then (some "/orig" : Option String) else Option.none)
        (some [("project_path", "/evil"), ("min_num_features", "9000")])
        "/proj" "project_path" = some "/proj" := by
  have h := claim_C5_project_path_protected
    (fun q => if q = "project_path" then (some "/orig" : Option String) else Option.none)
    [("project_path", "/evil"), ("min_num_features", "9000")]
    "min_num_features" (by decide) "/proj"
  exact ⟨by decide, h.1.trans rfl, (h.2.1).trans rfl, h.2.2⟩

/-! ## Claim C1 -/

/-- The character found by `rfind` really sits at the reported index. -/
theorem rfindIdxCh_drop (c : Char) :
    ∀ (cs : List Char) (j : Nat), rfindIdxCh c cs = some j →
      cs.drop j = c :: cs.drop (j + 1) := by
  intro cs
  induction cs with
  | nil => intro j h; simp [rfindIdxCh] at h
  | cons x xs ih =>
    intro j h
    unfold rfindIdxCh at h
    cases hx : rfindIdxCh c xs with
    | some j' =>
      rw [hx] at h
      injection h with h'
      subst h'
      simpa using ih j' hx
    | none =>
      rw [hx] at h
      by_cases hxc : x = c
      · rw [if_pos hxc] at h
        injection h with h'
        subst h'
        simp [hxc]
      · rw [if_neg hxc] at h
        cases h

/-- Model of `os.path.splitext` yields either no extension or one that starts with a
dot. -/
theorem splitextExt_shape (p : String) :
    splitextExt p = "" ∨ ∃ rest, (splitextExt p).data = '.' :: rest := by
  unfold splitextExt
  cases hd : rfindIdxCh '.' p.data with
  | none =>
    simp [hd]
  | some dotIdx =>
    simp only [hd]
    split
    · split
      · exact Or.inr ⟨p.data.drop (dotIdx + 1), by
          show (String.mk (p.data.drop dotIdx)).data = _
          rw [show p.data.drop dotIdx = '.' :: p.data.drop (dotIdx + 1) from
            rfindIdxCh_drop '.' p.data dotIdx hd]⟩
      · exact Or.inl rfl
    · exact Or.inl rfl

/-- A string that is empty or starts with a dot is not among the dot-less
extensions of `transformer.py`'s `KNOWN_IMAGE_FILE_EXTS`. -/
theorem trf_ext_not_contains (s : String)
    (h : s.data = [] ∨ ∃ rest, s.data = '.' :: rest) :
    Trf.KNOWN_IMAGE_FILE_EXTS.contains s = false := by
  have hne : ∀ t : String, t.data.head? ≠ some '.' → t.data ≠ [] → s ≠ t := by
    intro t ht1 ht2 he
    subst he
    rcases h with h | ⟨rest, h⟩
    · exact ht2 h
    · exact ht1 (by rw [h]; rfl)
  have h1 : (s == "tif") = false := beq_eq_false_iff_ne.mpr (hne _ (by decide) (by decide))
  have h2 : (s == "tiff") = false := beq_eq_false_iff_ne.mpr (hne _ (by decide) (by decide))
  have h3 : (s == "jpg") = false := beq_eq_false_iff_ne.mpr (hne _ (by decide) (by decide))
  simp [Trf.KNOWN_IMAGE_FILE_EXTS, List.contains, List.elem, h1, h2, h3]

/-- C1 (single-file classification): the current `odm.py` classifier accepts
a plain file exactly when its lowercased `splitext` extension is `.tif`,
`.tiff` or `.jpg`; the older `transformer.py` classifier rejects every plain
file, because it compares the dotted extension against a dot-less list. -/
theorem claim_C1_single_file_image_classification (fs : FileSys) (path : String)
    (h : fs.isDir path = false) :
    (Odm.check_for_image_file fs path = true ↔
      (lowerStr (splitextExt path) = ".tif" ∨ lowerStr (splitextExt path) = ".tiff" ∨
        lowerStr (splitextExt path) = ".jpg")) ∧
    Trf.check_for_image_file fs path = false := by
  constructor
  · unfold Odm.check_for_image_file
    simp [h, Odm.KNOWN_IMAGE_FILE_EXTS, List.contains, List.elem_iff]
  · unfold Trf.check_for_image_file
    simp only [h, Bool.false_eq_true, if_false]
    apply trf_ext_not_contains
    rcases splitextExt_shape path with h1 | ⟨rest, h1⟩
    · left
      rw [h1]
      rfl
    · right
      refine ⟨rest.map charLower, ?_⟩
      show (splitextExt path).data.map charLower = _
      rw [h1]
      rfl

/-- Witness for C1 at the plain file `a.tif`. -/
theorem claim_C1_single_file_image_classification_witness :
    fsPlainFiles.isDir "a.tif" = false ∧
    Odm.check_for_image_file fsPlainFiles "a.tif" = true ∧
    Trf.check_for_image_file fsPlainFiles "a.tif" = false := by
  have h := claim_C1_single_file_image_classification fsPlainFiles "a.tif" rfl
  exact ⟨rfl, h.1.mpr (Or.inl rfl), h.2⟩

/-! ## Claims C6 and C7 -/

/-- The inner manifest loop appends, in order, one entry per existing file. -/
theorem collect_inner (fe : String → Bool) (base : String)
    (files : List (String × String)) (acc : List FileEntry) :
    files.foldl
        (fun a one_file =>
          if fe (pathJoin base one_file.1) then
            a ++ [⟨pathJoin base one_file.1, one_file.2⟩]
          else a)
        acc =
      acc ++ (files.filter (fun f => fe (pathJoin base f.1))).map
        (fun f => (⟨pathJoin base f.1, f.2⟩ : FileEntry)) := by
  induction files generalizing acc with
  | nil => simp
  | cons f fl ih =>
    simp only [List.foldl_cons, List.filter_cons]
    by_cases hf : fe (pathJoin base f.1)
    · simp [hf, ih]
    · simp [hf, ih]

/-- Flatten a result table into `(subdirectory, filename, type)` rows. -/
def flattenTable (tbl : List (String × ResultSpec)) : List (String × String × String) :=
  tbl.foldr (fun rf acc => rf.2.files.map (fun f => (rf.1, f.1, f.2)) ++ acc) []

/-- The whole manifest loop filters the flattened table in order. -/
theorem collect_tbl (fe : String → Bool) (pp : String)
    (tbl : List (String × ResultSpec)) (acc : List FileEntry) :
    tbl.foldl
        (fun files_md rf =>
          rf.2.files.foldl
            (fun a one_file =>
              if fe (pathJoin (pathJoin pp rf.1) one_file.1) then
                a ++ [⟨pathJoin (pathJoin pp rf.1) one_file.1, one_file.2⟩]
              else a)
            files_md)
        acc =
      acc ++ ((flattenTable tbl).filter
          (fun e => fe (pathJoin (pathJoin pp e.1) e.2.1))).map
        (fun e => (⟨pathJoin (pathJoin pp e.1) e.2.1, e.2.2⟩ : FileEntry)) := by
  induction tbl generalizing acc with
  | nil => simp [flattenTable]
  | cons rf tl ih =>
    simp only [List.foldl_cons]
    rw [collect_inner, ih]
    simp only [flattenTable, List.foldr_cons, List.filter_append, List.map_append,
      List.filter_map, List.map_map, List.append_assoc]
    rfl

/-- C6 counterexample: a successful `odm.py` result dictionary has keys
`['file', 'code']` — there is no `'files'` key. -/
theorem claim_C6_counterexample :
    (Odm.perform_process (fun _ => false) "/tmp/odm_proj" 3).map Prod.fst =
      ["file", "code"] ∧
    (Odm.perform_process (fun _ => false) "/tmp/odm_proj" 3).lookup "files" =
      Option.none ∧
    (Odm.perform_process (fun _ => false) "/tmp/odm_proj" 3).lookup "file" =
      some (RVal.entries []) := by
  exact ⟨rfl, rfl, rfl⟩

/-- C6 as amended: the current (`odm.py`) success result is
`{'file': manifest, 'code': stitch code}` with the subordinate engine's exit
code propagated verbatim into `'code'`; the older `transformer.py` generation
instead returns `{'files': manifest, 'code': 0}` with a constant code and no
subordinate process. -/
theorem claim_C6_result_shape_and_code (fe : String → Bool) (wf : String) (c : Int) :
    Odm.perform_process fe wf c =
      [("file", RVal.entries (Odm.collect_result_files fe wf)),
       ("code", RVal.int c)] ∧
    (Odm.perform_process fe wf c).lookup "code" = some (RVal.int c) ∧
    Trf.perform_process fe wf =
      [("files", RVal.entries (Trf.collect_result_files fe wf)),
       ("code", RVal.int 0)] := by
  exact ⟨rfl, rfl, rfl⟩

/-- C7: after engine termination the manifest is exactly the fixed table —
flattened in table order, within-subdirectory order preserved — filtered by
existence of `projectPath/<subdirectory>/<filename>`; with no file present the
manifest is empty, and the result dictionary still carries no `'error'` key. -/
theorem claim_C7_manifest_is_ordered_filter (fe : String → Bool) (pp : String) (c : Int) :
    Odm.collect_result_files fe pp =
      (Odm.RESULT_FILES_flat.filter
          (fun e => fe (pathJoin (pathJoin pp e.1) e.2.1))).map
        (fun e => (⟨pathJoin (pathJoin pp e.1) e.2.1, e.2.2⟩ : FileEntry)) ∧
    Odm.collect_result_files (fun _ => false) pp = [] ∧
    (Odm.perform_process (fun _ => false) pp c).lookup "error" = Option.none := by
  refine ⟨?_, rfl, rfl⟩
  simp only [Odm.collect_result_files]
  rw [collect_tbl]
  rfl

end AgOdm
